import Mathlib

/-!
# Verification of the TradeCity order-matching core

Shallow embedding of `src/matching/orderbook.rs` (an unfinished Rust sketch of
a single-instrument order book) together with a model, built from the design
document, of the one operation whose deciding code is genuinely absent from
the source (`cancel_order`, whose body is `todo!()`).  Rust `i64` values are
modelled as `Int` (no claim exercises
64-bit overflow); `u32` counters wrap modulo `2^32`; `VecDeque` becomes `List`
(front = head); `HashMap<i64, Order>` becomes an association list.  A Rust
`panic!` (from `try_into().unwrap()` on a negative index, an out-of-bounds
`VecDeque::insert`, or the `todo!()` body of `cancel_order`) is a distinguished
`fatal` outcome, separate from a returned `Err`.
-/

namespace TradeCity

/-- `Security {isin, name}` from the source; an opaque instrument handle. -/
structure Security where
  isin : String
  name : String
deriving DecidableEq

/-- `Order` from the source: identity, side, optional limit, quantity
(`amount`) and filled quantity (`amount_executed`).  The `security` reference
is carried as a value. -/
structure Order where
  order_id : Int
  is_buy_order : Bool
  order_limit : Option Int
  security : Security
  amount : Int
  amount_executed : Int
deriving DecidableEq

/-- `Order::new`: fresh order with unassigned id `-1` and nothing executed. -/
def Order.new (is_buy_order : Bool) (order_limit : Option Int)
    (security : Security) (amount : Int) : Order :=
  { order_id := -1
    is_buy_order := is_buy_order
    order_limit := order_limit
    security := security
    amount := amount
    amount_executed := 0 }

/-- The `MatchingSignal` enum from the source. -/
inductive MatchingSignal where
  | BuyAtMarket
  | SellAtMarket
  | NewHighestBid
  | NewLowestAsk
  | NoOperation
deriving DecidableEq

/-- The `Orderbook` struct from the source.  `order_map` is the order
registry; the two `*_limit_orders` fields are the per-side price ladders
(queues of queues of order ids); the `number_*` counters are `u32`. -/
structure Orderbook where
  security : Security
  starting_price : Int
  current_market_price : Int
  best_bid : Int
  best_ask : Int
  worst_bid : Int
  worst_ask : Int
  order_map : List (Int × Order)
  buy_at_market_orders : List Int
  sell_at_market_orders : List Int
  buy_limit_orders : List (List Int)
  sell_limit_orders : List (List Int)
  number_buy_limit_orders : Nat
  number_sell_limit_orders : Nat
deriving DecidableEq

/-- `Orderbook::new`: all four price bounds start at the sentinel `0`, every
collection empty, market price at `starting_price`. -/
def Orderbook.new (security : Security) (starting_price : Int) : Orderbook :=
  { security := security
    starting_price := starting_price
    current_market_price := starting_price
    best_bid := 0
    best_ask := 0
    worst_bid := 0
    worst_ask := 0
    order_map := []
    buy_at_market_orders := []
    sell_at_market_orders := []
    buy_limit_orders := []
    sell_limit_orders := []
    number_buy_limit_orders := 0
    number_sell_limit_orders := 0 }

/-- `HashMap::insert`: replace the binding for the key if present, else add. -/
def mapInsert (m : List (Int × Order)) (k : Int) (v : Order) :
    List (Int × Order) :=
  if (m.find? (fun p => p.1 = k)).isSome then
    m.map (fun p => if p.1 = k then (k, v) else p)
  else
    m ++ [(k, v)]

/-- `HashMap::get`: first binding for the key, if any. -/
def mapFind (m : List (Int × Order)) (k : Int) : Option Order :=
  (m.find? (fun p => p.1 = k)).map (·.2)

/-- Append an element to the queue at position `i` (the source's
`get_mut(i)` followed by `push_back`). -/
def pushAt (ls : List (List Int)) (i : Nat) (v : Int) : List (List Int) :=
  ls.set i ((ls.getD i []) ++ [v])

/-- Outcome of `insert_order`: `Ok((id, signal))` together with the mutated
book and the mutated order, `Err(msg)` together with the book and order as
they stood at the `return Err`, or a Rust panic. -/
inductive InsertOutcome where
  | ok (b : Orderbook) (o : Order) (id : Int) (signal : MatchingSignal)
  | err (b : Orderbook) (o : Order) (msg : String)
  | fatal
deriving DecidableEq

/-- `Orderbook::insert_order`, translated branch for branch from the source.
Noteworthy source behaviour kept faithfully: `new_order_id` is the constant
`1`; an at-market order is never pushed onto the at-market queues (the source
only calls `.len()` on one of them); the `limit < worst_bid` collar test
compares `self.worst_bid` (the old worst) with the market price; the interior
offset `limit - best` is converted with `try_into().unwrap()`, which panics
when negative, and `VecDeque::insert(i, _)` panics when `i > len`. -/
def Orderbook.insert_order (b : Orderbook) (o : Order) : InsertOutcome :=
  if o.amount ≤ 0 then .err b o "Order amount must be greater than zero"
  else
    match o.order_limit with
    | some limit =>
      if limit ≤ 0 then
        .err b { o with order_id := 1 } "Limit must be greater than zero"
      else if o.is_buy_order then
        if limit > b.best_bid then
          .ok { b with
                buy_limit_orders := [1] :: b.buy_limit_orders
                number_buy_limit_orders :=
                  (b.number_buy_limit_orders + 1) % 2 ^ 32
                best_bid := limit }
            { o with order_id := 1 } 1 .NewHighestBid
        else if limit < b.worst_bid then
          if b.worst_bid * 12 < b.current_market_price * 10 then
            .err b { o with order_id := 1 }
              "Limit is too far away from current market price."
          else
            .ok { b with
                  buy_limit_orders := b.buy_limit_orders ++ [[1]]
                  number_buy_limit_orders :=
                    (b.number_buy_limit_orders + 1) % 2 ^ 32
                  worst_bid := limit }
              { o with order_id := 1 } 1 .NoOperation
        else
          if limit - b.best_bid < 0 then .fatal
          else if (limit - b.best_bid).toNat < b.buy_limit_orders.length then
            .ok { b with
                  buy_limit_orders :=
                    pushAt b.buy_limit_orders (limit - b.best_bid).toNat 1 }
              { o with order_id := 1 } 1
              (if limit - b.best_bid = 0 then .NewHighestBid
               else .NoOperation)
          else if (limit - b.best_bid).toNat = b.buy_limit_orders.length then
            .ok { b with buy_limit_orders := b.buy_limit_orders ++ [[1]] }
              { o with order_id := 1 } 1
              (if limit - b.best_bid = 0 then .NewHighestBid
               else .NoOperation)
          else .fatal
      else
        if limit < b.best_ask then
          .ok { b with
                sell_limit_orders := [1] :: b.sell_limit_orders
                number_sell_limit_orders :=
                  (b.number_sell_limit_orders + 1) % 2 ^ 32
                best_ask := limit }
            { o with order_id := 1 } 1 .NewLowestAsk
        else if limit > b.worst_ask then
          .ok { b with
                sell_limit_orders := b.sell_limit_orders ++ [[1]]
                number_sell_limit_orders :=
                  (b.number_sell_limit_orders + 1) % 2 ^ 32
                worst_ask := limit }
            { o with order_id := 1 } 1 .NoOperation
        else
          if limit - b.best_ask < 0 then .fatal
          else if (limit - b.best_ask).toNat < b.sell_limit_orders.length then
            .ok { b with
                  sell_limit_orders :=
                    pushAt b.sell_limit_orders (limit - b.best_ask).toNat 1 }
              { o with order_id := 1 } 1
              (if limit - b.best_ask = 0 then .NewLowestAsk
               else .NoOperation)
          else if (limit - b.best_ask).toNat = b.sell_limit_orders.length then
            .ok { b with sell_limit_orders := b.sell_limit_orders ++ [[1]] }
              { o with order_id := 1 } 1
              (if limit - b.best_ask = 0 then .NewLowestAsk
               else .NoOperation)
          else .fatal
    | none =>
      .ok b { o with order_id := 1 } 1
        (if o.is_buy_order then .BuyAtMarket else .SellAtMarket)

/-- The four `match_against_*` bodies in the source contain only comments:
each is the identity on the book and the order. -/
def Orderbook.match_against_buy_side_at_market (b : Orderbook) (o : Order) :
    Orderbook × Order := (b, o)

/-- Source body is empty (comments only). -/
def Orderbook.match_against_sell_side_at_market (b : Orderbook) (o : Order) :
    Orderbook × Order := (b, o)

/-- Source body is empty (comments only). -/
def Orderbook.match_against_buy_side (b : Orderbook) (o : Order) :
    Orderbook × Order := (b, o)

/-- Source body is empty (comments only). -/
def Orderbook.match_against_sell_side (b : Orderbook) (o : Order) :
    Orderbook × Order := (b, o)

/-- Outcome of `place_order`: `Ok(order_id)` with the mutated book, `Err(msg)`
with the book as it stood at the error return, or a Rust panic. -/
inductive PlaceOutcome where
  | ok (b : Orderbook) (id : Int)
  | err (b : Orderbook) (msg : String)
  | fatal
deriving DecidableEq

/-- `Orderbook::place_order` from the source: run `insert_order`, dispatch on
the signal (the matching stubs do nothing), and only the `NoOperation` branch
stores the order in the registry (`order_map`). -/
def Orderbook.place_order (b : Orderbook) (o : Order) : PlaceOutcome :=
  match b.insert_order o with
  | .ok b' o' id signal =>
    match signal with
    | .BuyAtMarket =>
      .ok (Orderbook.match_against_sell_side_at_market b' o').1 id
    | .SellAtMarket =>
      .ok (Orderbook.match_against_buy_side_at_market b' o').1 id
    | .NewHighestBid =>
      .ok (Orderbook.match_against_sell_side b' o').1 id
    | .NewLowestAsk =>
      .ok (Orderbook.match_against_buy_side b' o').1 id
    | .NoOperation =>
      .ok { b' with order_map := mapInsert b'.order_map id o' } id
  | .err b' _ msg => .err b' msg
  | .fatal => .fatal

/-- `Orderbook::cancel_order` in the source is `todo!()`: it panics on every
input. -/
def Orderbook.cancel_order (_b : Orderbook) (_order_id : Int) : PlaceOutcome :=
  .fatal

/-- Apply a list of placement requests in sequence; `none` as soon as one
call does not return `Ok`. -/
def Orderbook.applyOrders (b : Orderbook) : List Order → Option Orderbook
  | [] => some b
  | o :: os =>
    match b.place_order o with
    | .ok b' _ => b'.applyOrders os
    | _ => none

/-- A concrete security used by the closed (witness / scenario) theorems. -/
def sec0 : Security := { isin := "DE0001234567", name := "TestShare" }

/-- The book reached by placing `buy limit 98, qty 10` on a fresh book with
starting price 100 (signal `NewHighestBid`; the matching stub does nothing,
and no registry entry is written on that path). -/
def afterBuy98 : Orderbook :=
  { Orderbook.new sec0 100 with
    best_bid := 98
    buy_limit_orders := [[1]]
    number_buy_limit_orders := 1 }

/-- The book reached from `afterBuy98` by placing `sell limit 97, qty 5`
(the sell side is empty, so the order lands in the `limit > worst_ask`
branch: signal `NoOperation`, hence it is stored in the registry). -/
def afterBuySell : Orderbook :=
  { afterBuy98 with
    worst_ask := 97
    sell_limit_orders := [[1]]
    number_sell_limit_orders := 1
    order_map := [(1, { Order.new false (some 97) sec0 5 with order_id := 1 })] }

/-- The book reached by placing `sell limit 100, qty 1` on a fresh book with
starting price 100 (first branch taken is `limit > worst_ask`, so signal
`NoOperation` and the order is stored in the registry). -/
def bSell100 : Orderbook :=
  { Orderbook.new sec0 100 with
    worst_ask := 100
    sell_limit_orders := [[1]]
    number_sell_limit_orders := 1
    order_map := [(1, { Order.new false (some 100) sec0 1 with order_id := 1 })] }

/-- The book reached from `bSell100` by placing `sell limit 1000, qty 1`:
accepted as the new worst ask with no collar check (the registry entry for
key 1 is overwritten because ids are constant). -/
def bSell1000 : Orderbook :=
  { bSell100 with
    worst_ask := 1000
    sell_limit_orders := [[1], [1]]
    number_sell_limit_orders := 2
    order_map := [(1, { Order.new false (some 1000) sec0 1 with order_id := 1 })] }

/-- A hand-built book state inside the (otherwise unreachable) buy-side
new-worst branch: best bid 95, worst bid 90, market price 100. -/
def bWide : Orderbook :=
  { Orderbook.new sec0 100 with
    best_bid := 95
    worst_bid := 90
    buy_limit_orders := [[1]]
    number_buy_limit_orders := 1 }

namespace Spec

/-!
The one operation of the repository whose deciding code is genuinely absent
from src is cancellation: the body of `Orderbook::cancel_order` is
`todo!()`.  The definitions in this namespace model that operation, and
only the state it reads and writes, from §4.3 of the design document: an
order registry keyed by id, per-side at-market FIFOs and ladders of
`(price, FIFO)` levels, removal of the cancelled order from its recorded
queue with trimming of emptied levels, and erasure of its registry entry.
No implemented src operation (validation, id assignment, insertion
classification, the collar, matching dispatch) is re-modelled here.
-/

/-- Side of an order. -/
inductive Side where
  | buy
  | sell
deriving DecidableEq

/-- Modelled from the spec: an order — id, side, optional limit price,
quantity and filled quantity. -/
structure SOrder where
  id : Int
  side : Side
  limitPrice : Option Int
  quantity : Int
  filled : Int
deriving DecidableEq

/-- Modelled from the spec: the resting location stored in the registry —
the at-market queue or a ladder level identified by its price. -/
inductive Loc where
  | atMarket
  | level (price : Int)
deriving DecidableEq

/-- Modelled from the spec: a registry entry `{order, location}` (the side
is carried inside the order). -/
structure Entry where
  order : SOrder
  loc : Loc
deriving DecidableEq

/-- The four caller-visible error values of the spec. -/
inductive SpecError where
  | InvalidQuantity
  | InvalidPrice
  | PriceOutOfBand
  | OrderNotFound
deriving DecidableEq

/-- Modelled from the spec: the book state that cancellation touches —
market price, next id to assign, order registry, per-side at-market FIFOs
and per-side ladders.  A ladder is a best-first list of
`(price, FIFO of ids)` levels with non-empty queues; best/worst bounds are
derived from it, so emptied levels are trimmed by construction. -/
structure Book where
  current_market_price : Int
  next_id : Int
  registry : List (Int × Entry)
  buyAtMarket : List Int
  sellAtMarket : List Int
  buyLevels : List (Int × List Int)
  sellLevels : List (Int × List Int)
deriving DecidableEq

/-- A fresh book at a given starting price; ids start at 1. -/
def Book.new (starting_price : Int) : Book :=
  { current_market_price := starting_price
    next_id := 1
    registry := []
    buyAtMarket := []
    sellAtMarket := []
    buyLevels := []
    sellLevels := [] }

/-- Registry lookup by id (first binding). -/
def regFind : List (Int × Entry) → Int → Option Entry
  | [], _ => none
  | p :: rest, k => if p.1 = k then some p.2 else regFind rest k

/-- Remove every binding for an id. -/
def regErase : List (Int × Entry) → Int → List (Int × Entry)
  | [], _ => []
  | p :: rest, k =>
    if p.1 = k then regErase rest k else p :: regErase rest k

/-- The ladder of a side. -/
def Book.levelsOf (b : Book) : Side → List (Int × List Int)
  | .buy => b.buyLevels
  | .sell => b.sellLevels

/-- Replace the ladder of a side. -/
def Book.setLevels (b : Book) (s : Side) (lv : List (Int × List Int)) :
    Book :=
  match s with
  | .buy => { b with buyLevels := lv }
  | .sell => { b with sellLevels := lv }

/-- The at-market FIFO of a side. -/
def Book.atMarketOf (b : Book) : Side → List Int
  | .buy => b.buyAtMarket
  | .sell => b.sellAtMarket

/-- Replace the at-market FIFO of a side. -/
def Book.setAtMarket (b : Book) (s : Side) (q : List Int) : Book :=
  match s with
  | .buy => { b with buyAtMarket := q }
  | .sell => { b with sellAtMarket := q }

/-- Replace the registry. -/
def Book.setRegistry (b : Book) (r : List (Int × Entry)) : Book :=
  { b with registry := r }

/-- Remove an id from every level at the given price, trimming levels whose
queue becomes empty. -/
def removeFromLevels : List (Int × List Int) → Int → Int →
    List (Int × List Int)
  | [], _, _ => []
  | lv :: rest, p, oid =>
    if lv.1 = p then
      (if (lv.2.filter (fun i => i != oid)).isEmpty then
        removeFromLevels rest p oid
      else
        (lv.1, lv.2.filter (fun i => i != oid)) :: removeFromLevels rest p oid)
    else lv :: removeFromLevels rest p oid

/-- Modelled from the spec: `cancel_order` (`todo!()` in src).  Looks the id
up in the registry; if absent, `OrderNotFound`; otherwise removes the order
from its recorded queue (trimming an emptied level; the derived bounds
advance by construction) and erases its registry entry. -/
def Book.cancel_order (b : Book) (oid : Int) : Except SpecError Book :=
  match regFind b.registry oid with
  | none => .error .OrderNotFound
  | some e =>
    match e.loc with
    | .atMarket =>
      .ok ((b.setAtMarket e.order.side
            ((b.atMarketOf e.order.side).filter
              (fun i => i != oid))).setRegistry
          (regErase b.registry oid))
    | .level p =>
      .ok ((b.setLevels e.order.side
            (removeFromLevels (b.levelsOf e.order.side) p oid)).setRegistry
          (regErase b.registry oid))

/-- The order with this id rests in the queue named by the location: the
at-market FIFO of its side, or some ladder level at the stored price. -/
def RestingIn (b : Book) (s : Side) (loc : Loc) (oid : Int) : Prop :=
  match loc with
  | .atMarket => oid ∈ b.atMarketOf s
  | .level p => ∃ lv ∈ b.levelsOf s, lv.1 = p ∧ oid ∈ lv.2

end Spec

/-- A registry entry used by the C5 witness: order 7, a buy limit 98 qty 5,
resting at level 98. -/
def eC5 : Spec.Entry :=
  { order := { id := 7, side := .buy, limitPrice := some 98, quantity := 5,
               filled := 0 }
    loc := .level 98 }

/-- A concrete spec-model book holding only order 7, used by the C5
witness. -/
def bC5 : Spec.Book :=
  { Spec.Book.new 100 with
    next_id := 8
    registry := [(7, eC5)]
    buyLevels := [(98, [7])] }

/-- **C2.** The claim fails on the code: `insert_order` assigns the constant
id `1` (`let new_order_id: i64 = 1;`) to every admitted order, so the second
admitted order's id is not strictly greater than the first's.  Both
placements below succeed and both return id 1. -/
theorem C2_ids_constant_not_increasing :
    (Orderbook.new sec0 100).place_order (Order.new true (some 98) sec0 10)
      = .ok afterBuy98 1 ∧
    afterBuy98.place_order (Order.new false (some 97) sec0 5)
      = .ok afterBuySell 1 ∧
    ¬ (1 : Int) < 1 := by decide

/-- **C6.** Failing input for the claim: the single valid, non-crossing
placement `buy limit 98, qty 10` on a fresh book (starting price 100) admits
the order with id 1, yet the order is not retrievable from the registry
(`order_map` stays empty, because only the `NoOperation` branch of
`place_order` stores orders and the signal here is `NewHighestBid`), and
`worst_bid` stays at the sentinel `0` instead of the actual minimum resting
bid price 98. -/
theorem C6_registry_and_worst_bound_fail :
    (Orderbook.new sec0 100).place_order (Order.new true (some 98) sec0 10)
      = .ok afterBuy98 1 ∧
    afterBuy98.buy_limit_orders = [[1]] ∧
    mapFind afterBuy98.order_map 1 = none ∧
    afterBuy98.best_bid = 98 ∧
    afterBuy98.worst_bid = 0 := by decide

/-- **C7.** Failing input for the claim: with best_bid = 98 resting, a buy
limit order at 97 (strictly inside the claimed `[worst, best]` range) should
be enqueued at offset `|97 − 98| = 1`; the code instead computes the signed
offset `97 − 98 = −1` and `try_into::<usize>().unwrap()` panics. -/
theorem C7_interior_offset_panics :
    (Orderbook.new sec0 100).place_order (Order.new true (some 98) sec0 10)
      = .ok afterBuy98 1 ∧
    afterBuy98.place_order (Order.new true (some 97) sec0 5) = .fatal := by
  decide

/-- **C8.** A fresh book carries the no-liquidity sentinel `0` in all four
bounds, as claimed; but the first buy limit order (98) establishes only
`best_bid = 98` and leaves `worst_bid = 0`, contradicting the claimed
`best = worst = its own price`. -/
theorem C8_first_limit_sets_only_best :
    (Orderbook.new sec0 100).best_bid = 0 ∧
    (Orderbook.new sec0 100).worst_bid = 0 ∧
    (Orderbook.new sec0 100).best_ask = 0 ∧
    (Orderbook.new sec0 100).worst_ask = 0 ∧
    (Orderbook.new sec0 100).place_order (Order.new true (some 98) sec0 10)
      = .ok afterBuy98 1 ∧
    afterBuy98.best_bid = 98 ∧
    ¬ afterBuy98.worst_bid = 98 := by decide

/-- **C9.** Failing input for the claim: a buy market order (qty 5) is
classified `BuyAtMarket` as claimed, but its id is never appended to
`buy_at_market_orders` — `insert_order` returns the book unchanged (the
source only calls `.len()` on the queue), so the at-market FIFO stays empty. -/
theorem C9_market_order_never_enqueued :
    (Orderbook.new sec0 100).insert_order (Order.new true none sec0 5)
      = .ok (Orderbook.new sec0 100)
          { Order.new true none sec0 5 with order_id := 1 } 1 .BuyAtMarket ∧
    (Orderbook.new sec0 100).place_order (Order.new true none sec0 5)
      = .ok (Orderbook.new sec0 100) 1 ∧
    (Orderbook.new sec0 100).buy_at_market_orders = [] := by decide

/-- Every error return of `insert_order` carries the input book untouched:
the source validates and collar-checks strictly before any mutation. -/
theorem insert_order_err_eq (b : Orderbook) (o : Order) (b' : Orderbook)
    (o' : Order) (msg : String)
    (h : b.insert_order o = .err b' o' msg) : b' = b := by
  unfold Orderbook.insert_order at h
  repeat' split at h
  all_goals cases h
  all_goals rfl

/-- **C3.** Validation in `place_order`: non-positive quantity is rejected
with the invalid-quantity error, a non-positive limit (on a positive
quantity) with the invalid-price error, and every error return — including
the price-collar rejection — leaves every component of the book exactly as
before the call (the error outcome carries the input book itself).  The Rust
error values are the strings of the source (`InvalidQuantity` = "Order amount
must be greater than zero", `InvalidPrice` = "Limit must be greater than
zero"). -/
theorem C3_validation_and_no_mutation (b : Orderbook) (o : Order) :
    (o.amount ≤ 0 →
      b.place_order o = .err b "Order amount must be greater than zero") ∧
    (0 < o.amount → ∀ l, o.order_limit = some l → l ≤ 0 →
      b.place_order o = .err b "Limit must be greater than zero") ∧
    (∀ b' msg, b.place_order o = .err b' msg → b' = b) := by
  refine ⟨?_, ?_, ?_⟩
  · intro ha
    simp [Orderbook.place_order, Orderbook.insert_order, ha]
  · intro ha l hl hle
    simp [Orderbook.place_order, Orderbook.insert_order, hl, hle,
      not_le.mpr ha]
  · intro b' msg h
    unfold Orderbook.place_order at h
    split at h
    · split at h <;> simp_all
    · rename_i b2 o2 msg2 heq
      have hb : b2 = b := insert_order_err_eq b o b2 o2 msg2 heq
      cases h
      exact hb
    · simp at h

/-- Witness for C3 at a concrete input: quantity 0 is rejected with the
invalid-quantity error and the untouched book. -/
theorem C3_witness :
    (Order.new true (some 98) sec0 0).amount ≤ 0 ∧
    (Orderbook.new sec0 100).place_order (Order.new true (some 98) sec0 0)
      = .err (Orderbook.new sec0 100)
          "Order amount must be greater than zero" :=
  ⟨by decide,
    (C3_validation_and_no_mutation (Orderbook.new sec0 100)
      (Order.new true (some 98) sec0 0)).1 (by decide)⟩

/-- A successful `insert_order` moves each stored bound weakly outward:
`best_bid` and `worst_ask` can only grow, `best_ask` and `worst_bid` can
only shrink. -/
theorem insert_order_ok_bounds (b : Orderbook) (o : Order) (b' : Orderbook)
    (o' : Order) (id : Int) (s : MatchingSignal)
    (h : b.insert_order o = .ok b' o' id s) :
    b.best_bid ≤ b'.best_bid ∧ b'.best_ask ≤ b.best_ask ∧
    b'.worst_bid ≤ b.worst_bid ∧ b.worst_ask ≤ b'.worst_ask := by
  unfold Orderbook.insert_order at h
  repeat' split at h
  all_goals cases h
  all_goals try dsimp only
  all_goals omega

/-- A successful `place_order` moves each stored bound weakly outward (the
matching stubs in the source mutate nothing, and the registry write on the
`NoOperation` path does not touch the bounds). -/
theorem place_order_ok_bounds (b : Orderbook) (o : Order) (b' : Orderbook)
    (id : Int) (h : b.place_order o = .ok b' id) :
    b.best_bid ≤ b'.best_bid ∧ b'.best_ask ≤ b.best_ask ∧
    b'.worst_bid ≤ b.worst_bid ∧ b.worst_ask ≤ b'.worst_ask := by
  unfold Orderbook.place_order at h
  split at h
  · rename_i b2 o2 id2 sig heq
    have hb := insert_order_ok_bounds b o b2 o2 id2 sig heq
    split at h <;> cases h <;>
      dsimp only [Orderbook.match_against_sell_side_at_market,
        Orderbook.match_against_buy_side_at_market,
        Orderbook.match_against_sell_side,
        Orderbook.match_against_buy_side] <;>
      exact hb
  · simp at h
  · simp at h

/-- Bound monotonicity extends along any all-successful run of placements. -/
theorem applyOrders_bounds (os : List Order) (b b' : Orderbook)
    (h : b.applyOrders os = some b') :
    b.best_bid ≤ b'.best_bid ∧ b'.best_ask ≤ b.best_ask ∧
    b'.worst_bid ≤ b.worst_bid ∧ b.worst_ask ≤ b'.worst_ask := by
  induction os generalizing b with
  | nil =>
    simp only [Orderbook.applyOrders, Option.some.injEq] at h
    subst h
    exact ⟨le_refl _, le_refl _, le_refl _, le_refl _⟩
  | cons o os ih =>
    unfold Orderbook.applyOrders at h
    split at h
    · rename_i b1 id heq
      have hstep := place_order_ok_bounds b o b1 id heq
      have hrest := ih b1 h
      exact ⟨le_trans hstep.1 hrest.1, le_trans hrest.2.1 hstep.2.1,
        le_trans hrest.2.2.1 hstep.2.2.1, le_trans hstep.2.2.2 hrest.2.2.2⟩
    · exact absurd h (by simp)

/-- **C10.** Across every all-successful run of `place_order` calls from a
fresh book, the stored bounds move in one direction only: between any two
points of the run, `best_bid` and `worst_ask` never decrease and `best_ask`
and `worst_bid` never increase. -/
theorem C10_bounds_monotone (s : Security) (sp : Int) (os1 os2 : List Order)
    (b1 b2 : Orderbook)
    (_h1 : (Orderbook.new s sp).applyOrders os1 = some b1)
    (h2 : b1.applyOrders os2 = some b2) :
    b1.best_bid ≤ b2.best_bid ∧ b2.best_ask ≤ b1.best_ask ∧
    b2.worst_bid ≤ b1.worst_bid ∧ b1.worst_ask ≤ b2.worst_ask :=
  applyOrders_bounds os2 b1 b2 h2

/-- Witness for C10 at a concrete two-step run. -/
theorem C10_witness :
    (Orderbook.new sec0 100).applyOrders [Order.new true (some 98) sec0 10]
      = some afterBuy98 ∧
    afterBuy98.applyOrders [Order.new false (some 97) sec0 5]
      = some afterBuySell ∧
    (afterBuy98.best_bid ≤ afterBuySell.best_bid ∧
     afterBuySell.best_ask ≤ afterBuy98.best_ask ∧
     afterBuySell.worst_bid ≤ afterBuy98.worst_bid ∧
     afterBuy98.worst_ask ≤ afterBuySell.worst_ask) :=
  ⟨by decide, by decide,
    C10_bounds_monotone sec0 100 [Order.new true (some 98) sec0 10]
      [Order.new false (some 97) sec0 5] afterBuy98 afterBuySell
      (by decide) (by decide)⟩

/-- **C4 counterexample.** With market price 100 and worst ask 100, a sell
limit order at 1000 would become the new worst ask and its price deviates
from the market price far beyond the claimed tolerance (mirrored reference
test: `1000 * 10 > 100 * 12`), yet the code accepts it — the sell side
carries no collar check at all — updating `worst_ask` to 1000 instead of
rejecting with `PriceOutOfBand`. -/
theorem C4_counterexample :
    (Orderbook.new sec0 100).place_order (Order.new false (some 100) sec0 1)
      = .ok bSell100 1 ∧
    (1000 : Int) > bSell100.worst_ask ∧
    bSell100.current_market_price * 12 < 1000 * 10 ∧
    bSell100.place_order (Order.new false (some 1000) sec0 1)
      = .ok bSell1000 1 ∧
    bSell1000.worst_ask = 1000 := by decide

/-- **C4 amended.** Only the buy side applies the collar, and the test reads
the *previous* worst bid, not the incoming order's own price: a buy limit
that would become the new worst bid is rejected with `PriceOutOfBand` (book
unchanged) iff `worst_bid * 12 < current_market_price * 10` holds for the
old `worst_bid`; otherwise it is appended at the back of the ladder,
`worst_bid` updates to its price, and the signal is `NoOperation`.  A sell
limit that would become the new worst ask is always accepted: appended at
the back, `worst_ask` updates, signal `NoOperation`. -/
theorem C4_amended_worst_extension (b : Orderbook) (o : Order) (limit : Int)
    (hq : 0 < o.amount) (hl : o.order_limit = some limit) (hp : 0 < limit) :
    (o.is_buy_order = true → ¬ limit > b.best_bid → limit < b.worst_bid →
      (b.worst_bid * 12 < b.current_market_price * 10 →
        b.insert_order o = .err b { o with order_id := 1 }
          "Limit is too far away from current market price.") ∧
      (¬ b.worst_bid * 12 < b.current_market_price * 10 →
        b.insert_order o
          = .ok { b with
                  buy_limit_orders := b.buy_limit_orders ++ [[1]]
                  number_buy_limit_orders :=
                    (b.number_buy_limit_orders + 1) % 2 ^ 32
                  worst_bid := limit }
              { o with order_id := 1 } 1 .NoOperation)) ∧
    (o.is_buy_order = false → ¬ limit < b.best_ask → limit > b.worst_ask →
      b.insert_order o
        = .ok { b with
                sell_limit_orders := b.sell_limit_orders ++ [[1]]
                number_sell_limit_orders :=
                  (b.number_sell_limit_orders + 1) % 2 ^ 32
                worst_ask := limit }
            { o with order_id := 1 } 1 .NoOperation) := by
  refine ⟨?_, ?_⟩
  · intro hbuy h1 h2
    refine ⟨fun h3 => ?_, fun h3 => ?_⟩ <;>
      simp [Orderbook.insert_order, not_le.mpr hq, hl, not_le.mpr hp, hbuy,
        h1, h2, h3]
  · intro hsell h1 h2
    simp [Orderbook.insert_order, not_le.mpr hq, hl, not_le.mpr hp, hsell,
      h1, h2]

/-- Witness for the amended C4: a buy limit at 80 (below worst bid 90, old
worst within tolerance of market 100) is appended at the back with
`worst_bid := 80` and signal `NoOperation`. -/
theorem C4_amended_witness :
    bWide.insert_order (Order.new true (some 80) sec0 1)
      = .ok { bWide with
              buy_limit_orders := bWide.buy_limit_orders ++ [[1]]
              number_buy_limit_orders :=
                (bWide.number_buy_limit_orders + 1) % 2 ^ 32
              worst_bid := 80 }
          { Order.new true (some 80) sec0 1 with order_id := 1 } 1
          .NoOperation :=
  ((C4_amended_worst_extension bWide (Order.new true (some 80) sec0 1) 80
      (by decide) rfl (by decide)).1 rfl (by decide) (by decide)).2
    (by decide)

/-- **C1.** Failing input for the claim, evaluated on the code: after the
buy limit 98 qty 10 rests (best bid 98, but never written to the registry),
the sell limit 97 qty 5 takes the `limit > worst_ask` branch (the sell side
holds the sentinel `worst_ask = 0` and `97 > 0`), gets signal `NoOperation`,
and simply rests on the ask ladder with `worst_ask = 97`: no matching is
dispatched, no `Execution` is produced (the code constructs none anywhere),
the sell order sits unfilled in the registry, and the buy order is absent
from it — against the claimed single execution at price 98 for quantity 5
with the sell order fully filled and gone. -/
theorem C1_crossing_produces_no_execution :
    (Orderbook.new sec0 100).place_order (Order.new true (some 98) sec0 10)
      = .ok afterBuy98 1 ∧
    afterBuy98.best_bid = 98 ∧
    mapFind afterBuy98.order_map 1 = none ∧
    afterBuy98.place_order (Order.new false (some 97) sec0 5)
      = .ok afterBuySell 1 ∧
    afterBuySell.sell_limit_orders = [[1]] ∧
    afterBuySell.worst_ask = 97 ∧
    mapFind afterBuySell.order_map 1
      = some { Order.new false (some 97) sec0 5 with order_id := 1 } ∧
    ({ Order.new false (some 97) sec0 5 with
       order_id := 1 } : Order).amount_executed = 0 := by decide

/-- Projection: replacing the registry stores exactly that registry. -/
theorem registry_setRegistry (b : Spec.Book) (r : List (Int × Spec.Entry)) :
    (b.setRegistry r).registry = r := rfl

/-- Replacing the registry leaves the at-market queues alone. -/
theorem atMarketOf_setRegistry (b : Spec.Book) (r : List (Int × Spec.Entry))
    (s : Spec.Side) : (b.setRegistry r).atMarketOf s = b.atMarketOf s := by
  cases s <;> rfl

/-- Replacing the registry leaves the ladders alone. -/
theorem levelsOf_setRegistry (b : Spec.Book) (r : List (Int × Spec.Entry))
    (s : Spec.Side) : (b.setRegistry r).levelsOf s = b.levelsOf s := by
  cases s <;> rfl

/-- Reading back the at-market queue just written. -/
theorem atMarketOf_setAtMarket (b : Spec.Book) (s : Spec.Side)
    (q : List Int) : (b.setAtMarket s q).atMarketOf s = q := by
  cases s <;> rfl

/-- Reading back the ladder just written. -/
theorem levelsOf_setLevels (b : Spec.Book) (s : Spec.Side)
    (lv : List (Int × List Int)) : (b.setLevels s lv).levelsOf s = lv := by
  cases s <;> rfl

/-- Erasing an id from the registry makes lookups of that id fail. -/
theorem regFind_regErase (r : List (Int × Spec.Entry)) (k : Int) :
    Spec.regFind (Spec.regErase r k) k = none := by
  induction r with
  | nil => rfl
  | cons p rest ih =>
    by_cases hp : p.1 = k
    · simpa [Spec.regErase, hp] using ih
    · simpa [Spec.regErase, Spec.regFind, hp] using ih

/-- An element never survives filtering by "different from itself". -/
theorem not_mem_filter_ne (l : List Int) (oid : Int) :
    oid ∉ l.filter (fun i => i != oid) := by
  intro h
  have h2 := (List.mem_filter.mp h).2
  simp at h2

/-- After `removeFromLevels`, no level priced `p` still holds `oid`. -/
theorem not_in_removeFromLevels (lvs : List (Int × List Int)) (p oid : Int) :
    ¬ ∃ lv ∈ Spec.removeFromLevels lvs p oid, lv.1 = p ∧ oid ∈ lv.2 := by
  induction lvs with
  | nil => simp [Spec.removeFromLevels]
  | cons lv rest ih =>
    simp only [Spec.removeFromLevels]
    by_cases hp : lv.1 = p
    · rw [if_pos hp]
      by_cases he : (lv.2.filter (fun i => i != oid)).isEmpty
      · rw [if_pos he]; exact ih
      · rw [if_neg he]
        rintro ⟨x, hx, hx1, hx2⟩
        rcases List.mem_cons.mp hx with h | h
        · subst h; exact not_mem_filter_ne lv.2 oid hx2
        · exact ih ⟨x, h, hx1, hx2⟩
    · rw [if_neg hp]
      rintro ⟨x, hx, hx1, hx2⟩
      rcases List.mem_cons.mp hx with h | h
      · subst h; exact hp hx1
      · exact ih ⟨x, h, hx1, hx2⟩

/-- **C5.** (On the spec model, since `cancel_order` is `todo!()` in src.)
`cancel_order` fails with `OrderNotFound` exactly when the id is absent from
the registry; on a present id it succeeds, the id is no longer in the
registry nor in the queue its registry entry pointed at, and cancelling the
same id again fails with `OrderNotFound`. -/
theorem C5_cancel_order (b : Spec.Book) (oid : Int) :
    (b.cancel_order oid = .error .OrderNotFound ↔
      Spec.regFind b.registry oid = none) ∧
    (∀ e, Spec.regFind b.registry oid = some e →
      (∃ b1, b.cancel_order oid = .ok b1) ∧
      ∀ b1, b.cancel_order oid = .ok b1 →
        Spec.regFind b1.registry oid = none ∧
        ¬ Spec.RestingIn b1 e.order.side e.loc oid ∧
        b1.cancel_order oid = .error .OrderNotFound) := by
  constructor
  · cases hm : Spec.regFind b.registry oid with
    | none => simp [Spec.Book.cancel_order, hm]
    | some e =>
      simp only [Spec.Book.cancel_order, hm]
      cases e.loc <;> simp
  · intro e he
    cases hloc : e.loc with
    | atMarket =>
      have hc : b.cancel_order oid
          = .ok ((b.setAtMarket e.order.side
                ((b.atMarketOf e.order.side).filter
                  (fun i => i != oid))).setRegistry
              (Spec.regErase b.registry oid)) := by
        simp [Spec.Book.cancel_order, he, hloc]
      refine ⟨⟨_, hc⟩, ?_⟩
      intro b1 hb1
      rw [hc] at hb1
      injection hb1 with hb1
      subst hb1
      refine ⟨?_, ?_, ?_⟩
      · rw [registry_setRegistry]
        exact regFind_regErase b.registry oid
      · simp only [Spec.RestingIn, atMarketOf_setRegistry,
          atMarketOf_setAtMarket]
        exact not_mem_filter_ne (b.atMarketOf e.order.side) oid
      · simp [Spec.Book.cancel_order, registry_setRegistry,
          regFind_regErase]
    | level p =>
      have hc : b.cancel_order oid
          = .ok ((b.setLevels e.order.side
                (Spec.removeFromLevels (b.levelsOf e.order.side) p
                  oid)).setRegistry
              (Spec.regErase b.registry oid)) := by
        simp [Spec.Book.cancel_order, he, hloc]
      refine ⟨⟨_, hc⟩, ?_⟩
      intro b1 hb1
      rw [hc] at hb1
      injection hb1 with hb1
      subst hb1
      refine ⟨?_, ?_, ?_⟩
      · rw [registry_setRegistry]
        exact regFind_regErase b.registry oid
      · simp only [Spec.RestingIn, levelsOf_setRegistry, levelsOf_setLevels]
        exact not_in_removeFromLevels (b.levelsOf e.order.side) p oid
      · simp [Spec.Book.cancel_order, registry_setRegistry,
          regFind_regErase]

/-- Witness for C5 at a concrete input: order 7 rests at level 98 in `bC5`
and its registry entry is `eC5`, so the theorem's present-id branch applies. -/
theorem C5_witness :
    Spec.regFind bC5.registry 7 = some eC5 ∧
    ((∃ b1, bC5.cancel_order 7 = .ok b1) ∧
      ∀ b1, bC5.cancel_order 7 = .ok b1 →
        Spec.regFind b1.registry 7 = none ∧
        ¬ Spec.RestingIn b1 eC5.order.side eC5.loc 7 ∧
        b1.cancel_order 7 = .error .OrderNotFound) :=
  ⟨by decide, (C5_cancel_order bC5 7).2 eC5 (by decide)⟩

end TradeCity
